import Mathlib

/-!
Verification development for the service registry and discovery layer of the
ticketing-microservices repository.

The registry service (an Express app, kept in the repository next to the other
services) holds two in-memory maps: `services` from a logical name to its
descriptor, and `failedChecks` from a name to its consecutive-failure counter.
We embed each HTTP handler and the health-check loop body as a pure function on
an explicit `RegistryState`; network poll results and timestamps are passed in
as parameters.  The API gateway discovery client and the self-registration
helper of s2-ticket-intake are embedded in the same style further below.

Conventions of the embedding:
- JavaScript timestamps (`Date.now()`, `new Date().toISOString()`) are `Nat`.
- JavaScript truthiness of the register-request fields maps to: a string is
  truthy iff nonempty, a port number is truthy iff nonzero.
- Network I/O performed by a handler is represented by an input parameter
  carrying the outcome of that I/O.
-/

namespace Registry

/-- Health check configuration constant of the registry source:
HEALTH_CHECK_INTERVAL = 30000 ms. -/
def HEALTH_CHECK_INTERVAL : Nat := 30000

/-- Health check configuration constant of the registry source:
HEALTH_CHECK_TIMEOUT = 5000 ms. -/
def HEALTH_CHECK_TIMEOUT : Nat := 5000

/-- Health check configuration constant of the registry source:
MAX_FAILED_CHECKS = 3 (remove service after 3 failed checks). -/
def MAX_FAILED_CHECKS : Nat := 3

/-- The stored descriptor, mirroring the object built by the register handler:
\x7b name, host, port, healthEndpoint, lastHealthCheck, status, registeredAt,
url \x7d.  `lastHealthCheck` starts as null, hence `Option Nat`. -/
structure ServiceInfo where
  name : String
  host : String
  port : Nat
  healthEndpoint : String
  lastHealthCheck : Option Nat
  status : String
  registeredAt : Nat
  url : String
deriving Repr, DecidableEq

/-- The mutable state of the registry process: the `services` map and the
`failedChecks` map, both keyed by the logical service name. -/
structure RegistryState where
  services : String → Option ServiceInfo
  failedChecks : String → Option Nat

/-- The registry state at process start: both maps empty. -/
def emptyRegistry : RegistryState :=
  { services := fun _ => none, failedChecks := fun _ => none }

/-- Body of a POST /register request: \x7b name, host, port, healthEndpoint? \x7d. -/
structure RegisterReq where
  name : String
  host : String
  port : Nat
  healthEndpoint : Option String
deriving Repr, DecidableEq

/-- Response of the register handler: the HTTP status code, and the descriptor
echoed back in the 201 body (`none` for the 400 error body). -/
structure RegisterResp where
  status : Nat
  service : Option ServiceInfo
deriving Repr, DecidableEq

/-- The healthEndpoint default of the register handler:
`healthEndpoint || "/health"` in the source; the empty string is falsy in
JavaScript, so it also falls back to the default. -/
def healthEndpointOrDefault (h : Option String) : String :=
  match h with
  | some s => if s = "" then "/health" else s
  | none => "/health"

/-- The POST /register handler.  Validates that name, host and port are
truthy, builds the descriptor (status "healthy", url `http://host:port`,
lastHealthCheck null), stores it in `services`, resets `failedChecks` for the
name to 0, and responds 201 with the descriptor; responds 400 when a required
field is missing. -/
def registerHandler (st : RegistryState) (req : RegisterReq) (now : Nat) :
    RegisterResp × RegistryState :=
  if req.name = "" ∨ req.host = "" ∨ req.port = 0 then
    ({ status := 400, service := none }, st)
  else
    let serviceInfo : ServiceInfo :=
      { name := req.name
        host := req.host
        port := req.port
        healthEndpoint := healthEndpointOrDefault req.healthEndpoint
        lastHealthCheck := none
        status := "healthy"
        registeredAt := now
        url := "http://" ++ req.host ++ ":" ++ toString req.port }
    ({ status := 201, service := some serviceInfo },
      { services := fun m => if m = req.name then some serviceInfo else st.services m
        failedChecks := fun m => if m = req.name then some 0 else st.failedChecks m })

/-- The DELETE /deregister/:name handler.  Responds 404 when the name is not
registered; otherwise removes the name from both maps and responds 200. -/
def deregisterHandler (st : RegistryState) (name : String) :
    Nat × RegistryState :=
  match st.services name with
  | none => (404, st)
  | some _ =>
      (200,
        { services := fun m => if m = name then none else st.services m
          failedChecks := fun m => if m = name then none else st.failedChecks m })

/-- The GET /services/:name handler: `none` models the 404 response, `some`
the 200 response carrying the stored descriptor. -/
def getServiceHandler (st : RegistryState) (name : String) :
    Option ServiceInfo :=
  st.services name

/-- Responses of the GET /discover/:name handler: 404 when the name is not in
`services`; 503 (with the descriptor in the body) when it is registered but
its status is not "healthy"; 200 with \x7b name, url, host, port, status \x7d
otherwise. -/
inductive DiscoverResp where
  | notFound : DiscoverResp
  | unavailable (service : ServiceInfo) : DiscoverResp
  | found (name url host : String) (port : Nat) (status : String) : DiscoverResp
deriving Repr, DecidableEq

/-- The GET /discover/:name handler.  It reads the store and never mutates
it. -/
def discoverHandler (st : RegistryState) (name : String) : DiscoverResp :=
  match st.services name with
  | none => .notFound
  | some service =>
      if service.status ≠ "healthy" then .unavailable service
      else .found service.name service.url service.host service.port service.status

/-- Outcome of one outbound GET to a health endpoint: HTTP 200 with a body
(the axios validateStatus accepts only 200), or any error (non-200, timeout,
connection failure) carrying a message. -/
inductive PollOutcome where
  | ok (data : String) : PollOutcome
  | err (msg : String) : PollOutcome
deriving Repr, DecidableEq

/-- Return value of checkServiceHealth: \x7b healthy, checkedAt, details \x7d. -/
structure PollResult where
  healthy : Bool
  checkedAt : Nat
  details : String
deriving Repr, DecidableEq

/-- checkServiceHealth of the registry source: wraps the poll outcome into
\x7b healthy, checkedAt, details \x7d, where details is the response body on
success and the error message on failure.  The network call itself is the
`outcome` parameter; `now` stands for `new Date().toISOString()`. -/
def checkServiceHealth (outcome : PollOutcome) (now : Nat) : PollResult :=
  match outcome with
  | .ok data => { healthy := true, checkedAt := now, details := data }
  | .err msg => { healthy := false, checkedAt := now, details := msg }

/-- Body of the 200 response of GET /health/:name:
\x7b service, status, lastCheck, details \x7d. -/
structure HealthResp where
  service : String
  status : String
  lastCheck : Nat
  details : String
deriving Repr, DecidableEq

/-- The GET /health/:name handler.  Responds 404 (`none`) when the name is not
registered; otherwise performs an on-demand poll via checkServiceHealth and
responds with its immediate result.  The source never writes to `services` or
`failedChecks` here, so the state component of the result is the input state
unchanged. -/
def healthNameHandler (st : RegistryState) (name : String)
    (outcome : PollOutcome) (now : Nat) :
    Option HealthResp × RegistryState :=
  match st.services name with
  | none => (none, st)
  | some _ =>
      let hs := checkServiceHealth outcome now
      (some { service := name
              status := if hs.healthy then "healthy" else "unhealthy"
              lastCheck := hs.checkedAt
              details := hs.details },
        st)

/-- One iteration of the performHealthChecks loop for a single entry
(name, service).  Sets lastHealthCheck to the poll time; on success sets
status "healthy" and resets the failure counter to 0; on failure increments
the counter (`failedChecks.get(name) || 0` in the source becomes `getD 0`),
sets status "unhealthy", and when the new counter reaches MAX_FAILED_CHECKS
removes the name from both maps.  When the name is not in `services` the loop
never visits it, so the state is returned unchanged. -/
def healthCheckStep (st : RegistryState) (name : String)
    (outcome : PollOutcome) (now : Nat) : RegistryState :=
  match st.services name with
  | none => st
  | some service =>
      let hs := checkServiceHealth outcome now
      if hs.healthy then
        { services := fun m =>
            if m = name then
              some { service with lastHealthCheck := some hs.checkedAt, status := "healthy" }
            else st.services m
          failedChecks := fun m => if m = name then some 0 else st.failedChecks m }
      else
        let newFailures := (st.failedChecks name).getD 0 + 1
        if MAX_FAILED_CHECKS ≤ newFailures then
          { services := fun m => if m = name then none else st.services m
            failedChecks := fun m => if m = name then none else st.failedChecks m }
        else
          { services := fun m =>
              if m = name then
                some { service with lastHealthCheck := some hs.checkedAt, status := "unhealthy" }
              else st.services m
            failedChecks := fun m => if m = name then some newFailures else st.failedChecks m }

/-- performHealthChecks: one full sweep, visiting the given entries in order
and applying the loop body to each. -/
def performHealthChecks (st : RegistryState)
    (polls : List (String × PollOutcome)) (now : Nat) : RegistryState :=
  polls.foldl (fun s p => healthCheckStep s p.1 p.2 now) st

end Registry

namespace Gateway

/-- Cache TTL of the api-gateway source: CACHE_TTL = 30000 ms. -/
def CACHE_TTL : Nat := 30000

/-- One entry of the serviceCache map: \x7b url, timestamp \x7d. -/
structure CacheEntry where
  url : String
  timestamp : Nat
deriving Repr, DecidableEq

/-- Outcome of the axios GET to the registry discover endpoint inside
discoverService: `ok url` is a 2xx response whose body has a truthy `url`
field; `noUrl` is a 2xx response without one (the handler then throws and
falls into its own catch); `failure` is any axios error (non-2xx status,
timeout, network failure). -/
inductive RegistryAnswer where
  | ok (url : String) : RegistryAnswer
  | noUrl : RegistryAnswer
  | failure : RegistryAnswer
deriving Repr, DecidableEq

/-- Result of one discoverService call: the value it returns (`none` when it
throws), the cache entry for the queried name afterwards, and whether the
registry was contacted during the call. -/
structure DiscoverRun where
  result : Option String
  cache : Option CacheEntry
  registryCalled : Bool
deriving Repr, DecidableEq

/-- The hardcoded fallbackUrls table of the api-gateway source. -/
def fallbackUrls : String → Option String := fun name =>
  if name = "s1-auth" then some "http://s1-auth-account:3001"
  else if name = "s2-tickets" then some "http://s2-ticket-intake:3002"
  else if name = "s4-workflow" then some "http://s4-workflow:3004"
  else if name = "s5-media" then some "http://s5-media:3005"
  else if name = "s6-notifications" then some "http://s6-notifications:3006"
  else if name = "s7-analytics" then some "http://s7-analytics:3007"
  else if name = "s8-feedback" then some "http://s8-feedback:3008"
  else none

/-- The catch branch of discoverService: consult the fallback table; when the
name is present return its address (the cache is left as it was — the source
does not write it), otherwise rethrow (result `none`). -/
def fallbackPath (cached : Option CacheEntry) (fallback : Option String) :
    DiscoverRun :=
  match fallback with
  | some fb => { result := some fb, cache := cached, registryCalled := true }
  | none => { result := none, cache := cached, registryCalled := true }

/-- The try branch of discoverService after a cache miss: query the registry;
on a body with a truthy url, write \x7b url, timestamp: now \x7d into the cache
and return the url; otherwise (missing url or axios error) fall into the catch
branch. -/
def discoverViaRegistry (serviceName : String) (cached : Option CacheEntry)
    (now : Nat) (registry : RegistryAnswer) : DiscoverRun :=
  match registry with
  | .ok url =>
      { result := some url
        cache := some { url := url, timestamp := now }
        registryCalled := true }
  | .noUrl => fallbackPath cached (fallbackUrls serviceName)
  | .failure => fallbackPath cached (fallbackUrls serviceName)

/-- discoverService of the api-gateway source.  `cached` is the serviceCache
entry for `serviceName`, `now` is `Date.now()`, and `registry` is the outcome
of the (at most one) registry call the function may make.  When a cached entry
exists and `now - cached.timestamp < CACHE_TTL` the cached url is returned
without touching the registry; otherwise the registry is queried. -/
def discoverService (serviceName : String) (cached : Option CacheEntry)
    (now : Nat) (registry : RegistryAnswer) : DiscoverRun :=
  match cached with
  | some c =>
      if now - c.timestamp < CACHE_TTL then
        { result := some c.url, cache := some c, registryCalled := false }
      else discoverViaRegistry serviceName cached now registry
  | none => discoverViaRegistry serviceName cached now registry

/-- What the gateway sends for one proxied route: the request is proxied to
the resolved target, or answered 503 Service Unavailable when discovery (and
fallback) failed. -/
inductive GatewayResponse where
  | proxied (target : String) : GatewayResponse
  | unavailable : GatewayResponse
deriving Repr, DecidableEq

/-- The middleware produced by createDynamicProxy: await discoverService and
proxy to its result; when discoverService throws, answer 503 with the
Service Unavailable body. -/
def createDynamicProxy (serviceName : String) (cached : Option CacheEntry)
    (now : Nat) (registry : RegistryAnswer) :
    GatewayResponse × Option CacheEntry :=
  let run := discoverService serviceName cached now registry
  match run.result with
  | some url => (.proxied url, run.cache)
  | none => (.unavailable, run.cache)

/-- The onError callback of the proxy middleware: on a transport-level failure
of the proxied request it deletes the cache entry for the service (the 502
response itself is outside the discovery model). -/
def onProxyError (_cached : Option CacheEntry) : Option CacheEntry := none

end Gateway

namespace SelfReg

/-- A JavaScript value resolved by registerService, as far as the retry loop
inspects it: its `success` field (undefined, true or false) and an opaque tag
for the rest of the payload. -/
structure ResolvedValue where
  success : Option Bool
  raw : String
deriving Repr, DecidableEq

/-- Outcome of the raw HTTP POST /register issued by registerService: a
response with a status code, the parsed body and whether JSON parsing
succeeds, or a network error with a message. -/
inductive HttpOutcome where
  | status (code : Nat) (body : ResolvedValue) (parseOk : Bool) : HttpOutcome
  | networkError (msg : String) : HttpOutcome
deriving Repr, DecidableEq

/-- What the registerService promise does: resolve with a value, or reject
(with the error carrying the status code). -/
inductive AttemptResult where
  | resolve (v : ResolvedValue) : AttemptResult
  | reject (code : Nat) : AttemptResult
deriving Repr, DecidableEq

/-- registerService of the helper in s2-ticket-intake: a 2xx response resolves
with the parsed body (or \x7b success: true \x7d when parsing fails); any
other status rejects; a network error resolves with
\x7b success: false, error: msg \x7d — the comment in the source says the
service should continue even if registration fails. -/
def registerService (o : HttpOutcome) : AttemptResult :=
  match o with
  | .status code body parseOk =>
      if 200 ≤ code ∧ code < 300 then
        if parseOk then .resolve body
        else .resolve { success := some true, raw := "" }
      else .reject code
  | .networkError msg => .resolve { success := some false, raw := msg }

/-- Result of a registerWithRetry run: the resolved value, the number of
attempts performed, and the number of delayMs waits performed. -/
structure RetryRun where
  result : ResolvedValue
  attempts : Nat
  delays : Nat
deriving Repr, DecidableEq

/-- The for loop of registerWithRetry, recursing on the remaining fuel
(`maxRetries + 1 - attempt` at entry).  An attempt resolving with
`success !== false` returns immediately; an attempt resolving with
`success === false`, or rejecting (caught by the catch branch), waits delayMs
when further attempts remain and continues.  When the loop ends the function
returns \x7b success: false \x7d. -/
def retryGo (outcomes : Nat → HttpOutcome) (maxRetries : Nat) :
    Nat → Nat → Nat → RetryRun
  | _attempt, 0, delays =>
      { result := { success := some false, raw := "" }
        attempts := maxRetries
        delays := delays }
  | attempt, fuel + 1, delays =>
      match registerService (outcomes attempt) with
      | .resolve v =>
          if v.success ≠ some false then
            { result := v, attempts := attempt, delays := delays }
          else if attempt < maxRetries then
            retryGo outcomes maxRetries (attempt + 1) fuel (delays + 1)
          else retryGo outcomes maxRetries (attempt + 1) fuel delays
      | .reject _ =>
          if attempt < maxRetries then
            retryGo outcomes maxRetries (attempt + 1) fuel (delays + 1)
          else retryGo outcomes maxRetries (attempt + 1) fuel delays

/-- registerWithRetry of the helper in s2-ticket-intake.  `outcomes k` is the
HTTP outcome of the k-th attempt (1-indexed).  The function is total: every
rejection of registerService is caught inside the loop, so it never throws. -/
def registerWithRetry (outcomes : Nat → HttpOutcome) (maxRetries : Nat) :
    RetryRun :=
  retryGo outcomes maxRetries 1 maxRetries 0

end SelfReg

open Registry Gateway SelfReg

/-- Helper: a valid registration responds 201, stores the descriptor it
echoes, and makes an immediate discover succeed with the registered url. -/
lemma register_discover_aux (st : RegistryState) (req : RegisterReq) (now : Nat)
    (hname : req.name ≠ "") (hhost : req.host ≠ "") (hport : req.port ≠ 0) :
    (registerHandler st req now).1.status = 201 ∧
    (registerHandler st req now).1.service =
      (registerHandler st req now).2.services req.name ∧
    discoverHandler (registerHandler st req now).2 req.name =
      .found req.name ("http://" ++ req.host ++ ":" ++ toString req.port)
        req.host req.port "healthy" := by
  have hcond : ¬(req.name = "" ∨ req.host = "" ∨ req.port = 0) := by
    push_neg
    exact ⟨hname, hhost, hport⟩
  refine ⟨?_, ?_, ?_⟩ <;>
    simp [registerHandler, if_neg hcond, discoverHandler]

/-- Helper: the health-check loop body leaves the state unchanged for a name
that is not in the services map. -/
lemma healthCheckStep_absent (st : RegistryState) (name : String)
    (outcome : PollOutcome) (now : Nat) (h : st.services name = none) :
    healthCheckStep st name outcome now = st := by
  simp [healthCheckStep, h]

/-- Helper: a failed poll whose incremented counter stays below the threshold
keeps the descriptor, marks it unhealthy and stores the new counter. -/
lemma healthCheckStep_err_keep (st : RegistryState) (name : String)
    (svc : ServiceInfo) (f : Nat) (msg : String) (now : Nat)
    (hsvc : st.services name = some svc) (hfc : st.failedChecks name = some f)
    (hlt : f + 1 < MAX_FAILED_CHECKS) :
    (healthCheckStep st name (.err msg) now).services name =
      some { svc with lastHealthCheck := some now, status := "unhealthy" } ∧
    (healthCheckStep st name (.err msg) now).failedChecks name = some (f + 1) ∧
    (∀ m, m ≠ name →
      (healthCheckStep st name (.err msg) now).services m = st.services m ∧
      (healthCheckStep st name (.err msg) now).failedChecks m = st.failedChecks m) := by
  have hnle : ¬ MAX_FAILED_CHECKS ≤ f + 1 := Nat.not_le.mpr hlt
  refine ⟨?_, ?_, ?_⟩ <;>
    simp [healthCheckStep, hsvc, hfc, checkServiceHealth, hnle]
  intro m hm
  simp [hm]

/-- Helper: a failed poll whose incremented counter reaches the threshold
removes the name from both maps. -/
lemma healthCheckStep_err_evict (st : RegistryState) (name : String)
    (svc : ServiceInfo) (f : Nat) (msg : String) (now : Nat)
    (hsvc : st.services name = some svc) (hfc : st.failedChecks name = some f)
    (hge : MAX_FAILED_CHECKS ≤ f + 1) :
    (healthCheckStep st name (.err msg) now).services name = none ∧
    (healthCheckStep st name (.err msg) now).failedChecks name = none := by
  constructor <;>
    simp [healthCheckStep, hsvc, hfc, checkServiceHealth, hge]

/-- C1: a register call supplying a name, host and port gets a 201 response
carrying the stored descriptor, and an immediately following discover on the
same name returns the found (HEALTHY) response with url
http:// ++ host ++ : ++ port. -/
theorem C1_register_then_discover (st : RegistryState) (req : RegisterReq)
    (now : Nat)
    (hname : req.name ≠ "") (hhost : req.host ≠ "") (hport : req.port ≠ 0) :
    (registerHandler st req now).1.status = 201 ∧
    (registerHandler st req now).1.service =
      (registerHandler st req now).2.services req.name ∧
    discoverHandler (registerHandler st req now).2 req.name =
      .found req.name ("http://" ++ req.host ++ ":" ++ toString req.port)
        req.host req.port "healthy" :=
  register_discover_aux st req now hname hhost hport

/-- Witness for C1 at the scenario of the spec: registering svc-a at
10.0.0.5:9000 into the empty registry and discovering it. -/
theorem C1_witness :
    ("svc-a" : String) ≠ "" ∧ ("10.0.0.5" : String) ≠ "" ∧ (9000 : Nat) ≠ 0 ∧
    ((registerHandler emptyRegistry
        { name := "svc-a", host := "10.0.0.5", port := 9000, healthEndpoint := none }
        0).1.status = 201 ∧
      (registerHandler emptyRegistry
        { name := "svc-a", host := "10.0.0.5", port := 9000, healthEndpoint := none }
        0).1.service =
        (registerHandler emptyRegistry
          { name := "svc-a", host := "10.0.0.5", port := 9000, healthEndpoint := none }
          0).2.services "svc-a" ∧
      discoverHandler
        (registerHandler emptyRegistry
          { name := "svc-a", host := "10.0.0.5", port := 9000, healthEndpoint := none }
          0).2 "svc-a" =
        .found "svc-a" ("http://" ++ "10.0.0.5" ++ ":" ++ toString (9000 : Nat))
          "10.0.0.5" 9000 "healthy") :=
  ⟨by decide, by decide, by decide,
    C1_register_then_discover emptyRegistry
      { name := "svc-a", host := "10.0.0.5", port := 9000, healthEndpoint := none }
      0 (by decide) (by decide) (by decide)⟩

/-- C4: a successful poll in the health-check loop resets the consecutive
failure counter of the descriptor to 0 and sets its status to healthy,
whatever the counter held before. -/
theorem C4_success_resets_counter (st : RegistryState) (name : String)
    (svc : ServiceInfo) (data : String) (now : Nat)
    (hsvc : st.services name = some svc) :
    (healthCheckStep st name (.ok data) now).failedChecks name = some 0 ∧
    (healthCheckStep st name (.ok data) now).services name =
      some { svc with lastHealthCheck := some now, status := "healthy" } := by
  constructor <;> simp [healthCheckStep, hsvc, checkServiceHealth]

/-- A sample unhealthy descriptor used by concrete instantiations below. -/
def sampleBadSvc : ServiceInfo :=
  { name := "svc-a", host := "10.0.0.5", port := 9000,
    healthEndpoint := "/health", lastHealthCheck := some 5,
    status := "unhealthy", registeredAt := 0,
    url := "http://10.0.0.5:9000" }

/-- A sample registry state holding svc-a with 2 recorded failures. -/
def sampleBadState : RegistryState :=
  { services := fun m => if m = "svc-a" then some sampleBadSvc else none
    failedChecks := fun m => if m = "svc-a" then some 2 else none }

/-- Witness for C4: a service with 2 recorded failures and unhealthy status is
reset by one successful poll. -/
theorem C4_witness :
    sampleBadState.services "svc-a" = some sampleBadSvc ∧
    ((healthCheckStep sampleBadState "svc-a" (.ok "okbody") 7).failedChecks "svc-a"
        = some 0 ∧
      (healthCheckStep sampleBadState "svc-a" (.ok "okbody") 7).services "svc-a" =
        some { sampleBadSvc with lastHealthCheck := some 7, status := "healthy" }) :=
  ⟨by decide,
    C4_success_resets_counter sampleBadState "svc-a" sampleBadSvc "okbody" 7 (by decide)⟩

/-- C9: the on-demand health check handler answers with the immediate poll
result and returns the registry state exactly as it received it: no
descriptor field changes, nothing is added or removed. -/
theorem C9_on_demand_health_is_pure (st : RegistryState) (name : String)
    (svc : ServiceInfo) (outcome : PollOutcome) (now : Nat)
    (hsvc : st.services name = some svc) :
    healthNameHandler st name outcome now =
      (some { service := name
              status := if (checkServiceHealth outcome now).healthy
                then "healthy" else "unhealthy"
              lastCheck := (checkServiceHealth outcome now).checkedAt
              details := (checkServiceHealth outcome now).details },
        st) := by
  simp [healthNameHandler, hsvc]

/-- Witness for C9: an on-demand check that fails leaves a concrete registry
state untouched while reporting unhealthy. -/
theorem C9_witness :
    sampleBadState.services "svc-a" = some sampleBadSvc ∧
    healthNameHandler sampleBadState "svc-a" (.err "timeout") 9 =
      (some { service := "svc-a"
              status := if (checkServiceHealth (.err "timeout") 9).healthy
                then "healthy" else "unhealthy"
              lastCheck := (checkServiceHealth (.err "timeout") 9).checkedAt
              details := (checkServiceHealth (.err "timeout") 9).details },
        sampleBadState) :=
  ⟨by decide,
    C9_on_demand_health_is_pure sampleBadState "svc-a" sampleBadSvc
      (.err "timeout") 9 (by decide)⟩

/-- C3: a descriptor that suffers one or two consecutive failed polls (below
the MAX_FAILED_CHECKS = 3 threshold) from a fresh failure counter stays in the
store with status unhealthy, and discover answers 503 Unavailable with the
descriptor, not 404. -/
theorem C3_partial_failures_unavailable (st : RegistryState) (name : String)
    (svc : ServiceInfo) (m1 m2 : String) (t1 t2 : Nat)
    (hsvc : st.services name = some svc)
    (hfc : st.failedChecks name = some 0) :
    (healthCheckStep st name (.err m1) t1).services name =
      some { svc with lastHealthCheck := some t1, status := "unhealthy" } ∧
    (healthCheckStep st name (.err m1) t1).failedChecks name = some 1 ∧
    discoverHandler (healthCheckStep st name (.err m1) t1) name =
      .unavailable { svc with lastHealthCheck := some t1, status := "unhealthy" } ∧
    (healthCheckStep (healthCheckStep st name (.err m1) t1) name
        (.err m2) t2).services name =
      some { svc with lastHealthCheck := some t2, status := "unhealthy" } ∧
    (healthCheckStep (healthCheckStep st name (.err m1) t1) name
        (.err m2) t2).failedChecks name = some 2 ∧
    discoverHandler
        (healthCheckStep (healthCheckStep st name (.err m1) t1) name (.err m2) t2)
        name =
      .unavailable { svc with lastHealthCheck := some t2, status := "unhealthy" } := by
  obtain ⟨hs1, hc1, -⟩ :=
    healthCheckStep_err_keep st name svc 0 m1 t1 hsvc hfc (by decide)
  obtain ⟨hs2, hc2, -⟩ :=
    healthCheckStep_err_keep _ name _ 1 m2 t2 hs1 hc1 (by decide)
  refine ⟨hs1, hc1, ?_, ?_, hc2, ?_⟩
  · simp [discoverHandler, hs1]
  · simpa using hs2
  · simp [discoverHandler, hs2]

/-- A sample freshly registered descriptor for svc-a. -/
def sampleFreshSvc : ServiceInfo :=
  { name := "svc-a", host := "10.0.0.5", port := 9000,
    healthEndpoint := "/health", lastHealthCheck := none,
    status := "healthy", registeredAt := 0,
    url := "http://10.0.0.5:9000" }

/-- A sample registry state holding svc-a freshly registered (counter 0). -/
def sampleFreshState : RegistryState :=
  { services := fun m => if m = "svc-a" then some sampleFreshSvc else none
    failedChecks := fun m => if m = "svc-a" then some 0 else none }

/-- Witness for C3: two failed polls against a freshly registered svc-a leave
it stored unhealthy and discoverable as 503. -/
theorem C3_witness :
    sampleFreshState.services "svc-a" = some sampleFreshSvc ∧
    sampleFreshState.failedChecks "svc-a" = some 0 ∧
    ((healthCheckStep sampleFreshState "svc-a" (.err "e1") 11).services "svc-a" =
        some { sampleFreshSvc with lastHealthCheck := some 11, status := "unhealthy" } ∧
      (healthCheckStep sampleFreshState "svc-a" (.err "e1") 11).failedChecks "svc-a" =
        some 1 ∧
      discoverHandler (healthCheckStep sampleFreshState "svc-a" (.err "e1") 11) "svc-a" =
        .unavailable { sampleFreshSvc with lastHealthCheck := some 11, status := "unhealthy" } ∧
      (healthCheckStep (healthCheckStep sampleFreshState "svc-a" (.err "e1") 11)
          "svc-a" (.err "e2") 12).services "svc-a" =
        some { sampleFreshSvc with lastHealthCheck := some 12, status := "unhealthy" } ∧
      (healthCheckStep (healthCheckStep sampleFreshState "svc-a" (.err "e1") 11)
          "svc-a" (.err "e2") 12).failedChecks "svc-a" = some 2 ∧
      discoverHandler
          (healthCheckStep (healthCheckStep sampleFreshState "svc-a" (.err "e1") 11)
            "svc-a" (.err "e2") 12) "svc-a" =
        .unavailable { sampleFreshSvc with lastHealthCheck := some 12, status := "unhealthy" }) :=
  ⟨by decide, by decide,
    C3_partial_failures_unavailable sampleFreshState "svc-a" sampleFreshSvc
      "e1" "e2" 11 12 (by decide) (by decide)⟩

/-- C2: three consecutive failed polls (MAX_FAILED_CHECKS = 3) with no
intervening success remove the descriptor from both maps, whatever the failure
counter held beforehand; afterwards discover answers 404 and get-one answers
404, and a fresh valid registration for the name makes discover succeed
again. -/
theorem C2_threshold_eviction (st : RegistryState) (name : String)
    (svc : ServiceInfo) (f : Nat) (m1 m2 m3 : String) (t1 t2 t3 : Nat)
    (req : RegisterReq) (treg : Nat)
    (hsvc : st.services name = some svc)
    (hfc : st.failedChecks name = some f)
    (hreq : req.name = name) (hne : req.name ≠ "")
    (hhost : req.host ≠ "") (hport : req.port ≠ 0) :
    (healthCheckStep (healthCheckStep (healthCheckStep st name (.err m1) t1)
        name (.err m2) t2) name (.err m3) t3).services name = none ∧
    (healthCheckStep (healthCheckStep (healthCheckStep st name (.err m1) t1)
        name (.err m2) t2) name (.err m3) t3).failedChecks name = none ∧
    discoverHandler
        (healthCheckStep (healthCheckStep (healthCheckStep st name (.err m1) t1)
          name (.err m2) t2) name (.err m3) t3) name = .notFound ∧
    getServiceHandler
        (healthCheckStep (healthCheckStep (healthCheckStep st name (.err m1) t1)
          name (.err m2) t2) name (.err m3) t3) name = none ∧
    discoverHandler
        (registerHandler
          (healthCheckStep (healthCheckStep (healthCheckStep st name (.err m1) t1)
            name (.err m2) t2) name (.err m3) t3) req treg).2 name =
      .found name ("http://" ++ req.host ++ ":" ++ toString req.port)
        req.host req.port "healthy" := by
  subst hreq
  have key :
      (healthCheckStep (healthCheckStep (healthCheckStep st req.name (.err m1) t1)
          req.name (.err m2) t2) req.name (.err m3) t3).services req.name = none ∧
      (healthCheckStep (healthCheckStep (healthCheckStep st req.name (.err m1) t1)
          req.name (.err m2) t2) req.name (.err m3) t3).failedChecks req.name = none := by
    rcases Nat.lt_or_ge f 2 with hf | hf
    · interval_cases f
      · obtain ⟨hs1, hc1, -⟩ :=
          healthCheckStep_err_keep st req.name svc 0 m1 t1 hsvc hfc (by decide)
        obtain ⟨hs2, hc2, -⟩ :=
          healthCheckStep_err_keep _ req.name _ 1 m2 t2 hs1 hc1 (by decide)
        exact healthCheckStep_err_evict _ req.name _ 2 m3 t3 hs2 hc2 (by decide)
      · obtain ⟨hs1, hc1, -⟩ :=
          healthCheckStep_err_keep st req.name svc 1 m1 t1 hsvc hfc (by decide)
        obtain ⟨hs2, hc2⟩ :=
          healthCheckStep_err_evict _ req.name _ 2 m2 t2 hs1 hc1 (by decide)
        rw [healthCheckStep_absent _ req.name (.err m3) t3 hs2]
        exact ⟨hs2, hc2⟩
    · obtain ⟨hs1, hc1⟩ :=
        healthCheckStep_err_evict st req.name svc f m1 t1 hsvc hfc
          (by simp only [MAX_FAILED_CHECKS]; omega)
      rw [healthCheckStep_absent _ req.name (.err m2) t2 hs1,
        healthCheckStep_absent _ req.name (.err m3) t3 hs1]
      exact ⟨hs1, hc1⟩
  obtain ⟨hgone, hcgone⟩ := key
  refine ⟨hgone, hcgone, ?_, ?_, ?_⟩
  · simp [discoverHandler, hgone]
  · simp [getServiceHandler, hgone]
  · exact (register_discover_aux _ req treg hne hhost hport).2.2

/-- Witness for C2: a concrete svc-a state with counter 0 is evicted by three
failed polls, turns 404, and revives after a fresh registration. -/
theorem C2_witness :
    sampleFreshState.services "svc-a" = some sampleFreshSvc ∧
    sampleFreshState.failedChecks "svc-a" = some 0 ∧
    ("svc-a" : String) ≠ "" ∧ ("10.0.0.9" : String) ≠ "" ∧ (9100 : Nat) ≠ 0 ∧
    ((healthCheckStep (healthCheckStep (healthCheckStep sampleFreshState "svc-a"
        (.err "e1") 21) "svc-a" (.err "e2") 22) "svc-a" (.err "e3") 23).services
        "svc-a" = none ∧
      (healthCheckStep (healthCheckStep (healthCheckStep sampleFreshState "svc-a"
        (.err "e1") 21) "svc-a" (.err "e2") 22) "svc-a" (.err "e3") 23).failedChecks
        "svc-a" = none ∧
      discoverHandler
        (healthCheckStep (healthCheckStep (healthCheckStep sampleFreshState "svc-a"
          (.err "e1") 21) "svc-a" (.err "e2") 22) "svc-a" (.err "e3") 23) "svc-a" =
        .notFound ∧
      getServiceHandler
        (healthCheckStep (healthCheckStep (healthCheckStep sampleFreshState "svc-a"
          (.err "e1") 21) "svc-a" (.err "e2") 22) "svc-a" (.err "e3") 23) "svc-a" =
        none ∧
      discoverHandler
        (registerHandler
          (healthCheckStep (healthCheckStep (healthCheckStep sampleFreshState "svc-a"
            (.err "e1") 21) "svc-a" (.err "e2") 22) "svc-a" (.err "e3") 23)
          { name := "svc-a", host := "10.0.0.9", port := 9100, healthEndpoint := none }
          30).2 "svc-a" =
        .found "svc-a" ("http://" ++ "10.0.0.9" ++ ":" ++ toString (9100 : Nat))
          "10.0.0.9" 9100 "healthy") :=
  ⟨by decide, by decide, by decide, by decide, by decide,
    C2_threshold_eviction sampleFreshState "svc-a" sampleFreshSvc 0
      "e1" "e2" "e3" 21 22 23
      { name := "svc-a", host := "10.0.0.9", port := 9100, healthEndpoint := none }
      30 (by decide) (by decide) rfl (by decide) (by decide) (by decide)⟩

/-- The names in the services map and the names in the failedChecks map
coincide. -/
def mapsConsistent (st : RegistryState) : Prop :=
  ∀ n, (st.services n).isSome ↔ (st.failedChecks n).isSome

/-- C10: register, deregister and every per-descriptor step of a health-check
sweep (healthy, unhealthy-kept and eviction alike) preserve the key alignment
of the services and failedChecks maps. -/
theorem C10_store_counter_alignment (st : RegistryState) (req : RegisterReq)
    (dname sname : String) (outcome : PollOutcome) (now tstep : Nat)
    (h : mapsConsistent st) :
    mapsConsistent (registerHandler st req now).2 ∧
    mapsConsistent (deregisterHandler st dname).2 ∧
    mapsConsistent (healthCheckStep st sname outcome tstep) := by
  refine ⟨?_, ?_, ?_⟩
  · by_cases hval : req.name = "" ∨ req.host = "" ∨ req.port = 0
    · simpa [registerHandler, hval] using h
    · intro n
      by_cases hn : n = req.name <;>
        simp [registerHandler, hval, hn, h n]
  · cases hdel : st.services dname with
    | none => simpa [deregisterHandler, hdel] using h
    | some svc =>
        intro n
        by_cases hn : n = dname <;>
          simp [deregisterHandler, hdel, hn, h n]
  · cases hstep : st.services sname with
    | none => simpa [healthCheckStep, hstep] using h
    | some svc =>
        cases outcome with
        | ok data =>
            intro n
            by_cases hn : n = sname <;>
              simp [healthCheckStep, hstep, checkServiceHealth, hn, h n]
        | err msg =>
            by_cases hev :
                MAX_FAILED_CHECKS ≤ (st.failedChecks sname).getD 0 + 1
            · intro n
              by_cases hn : n = sname <;>
                simp [healthCheckStep, hstep, checkServiceHealth, hev, hn, h n]
            · intro n
              by_cases hn : n = sname <;>
                simp [healthCheckStep, hstep, checkServiceHealth, hev, hn, h n]

/-- Number of registry calls one discoverService run performs (0 or 1). -/
def registryCallCount (r : DiscoverRun) : Nat :=
  if r.registryCalled then 1 else 0

/-- The complement of the freshness test of discoverService: no cached entry,
or the entry is at least CACHE_TTL old. -/
def cacheExpired (cached : Option CacheEntry) (now : Nat) : Bool :=
  match cached with
  | none => true
  | some c => CACHE_TTL ≤ now - c.timestamp

/-- Helper: every run of the registry branch of discoverService contacts the
registry. -/
lemma discoverViaRegistry_calls (name : String) (cached : Option CacheEntry)
    (now : Nat) (reg : RegistryAnswer) :
    (discoverViaRegistry name cached now reg).registryCalled = true := by
  cases reg with
  | ok url => rfl
  | noUrl =>
      simp only [discoverViaRegistry, fallbackPath]
      cases fallbackUrls name <;> rfl
  | failure =>
      simp only [discoverViaRegistry, fallbackPath]
      cases fallbackUrls name <;> rfl

/-- Helper: on an expired or absent cache entry, discoverService runs the
registry branch. -/
lemma discoverService_miss (name : String) (cached : Option CacheEntry)
    (now : Nat) (reg : RegistryAnswer)
    (h : cacheExpired cached now = true) :
    discoverService name cached now reg =
      discoverViaRegistry name cached now reg := by
  cases cached with
  | none => rfl
  | some c =>
      have hle : CACHE_TTL ≤ now - c.timestamp := by
        simpa [cacheExpired] using h
      simp [discoverService, Nat.not_lt.mpr hle]

/-- C5 (amended): a fresh cached entry is answered from the cache with no
registry call; an absent or expired entry makes the run contact the registry;
when the first of two resolves within one TTL window hits the cache or its
registry query succeeds, the pair performs at most one registry call; and a
resolve after proxy-error invalidation contacts the registry again. -/
theorem C5_cache_discipline (name : String) (c : CacheEntry)
    (cached cc : Option CacheEntry) (now now2 : Nat)
    (reg reg2 : RegistryAnswer) (url : String) :
    (now - c.timestamp < CACHE_TTL →
      discoverService name (some c) now reg =
        { result := some c.url, cache := some c, registryCalled := false }) ∧
    (cacheExpired cached now = true →
      (discoverService name cached now reg).registryCalled = true) ∧
    (now2 - now < CACHE_TTL →
      (reg = .ok url ∨ (discoverService name cached now reg).registryCalled = false) →
      registryCallCount (discoverService name cached now reg) +
        registryCallCount
          (discoverService name (discoverService name cached now reg).cache now2 reg2)
        ≤ 1) ∧
    (discoverService name (onProxyError cc) now2 reg2).registryCalled = true := by
  refine ⟨?_, ?_, ?_, ?_⟩
  · intro hfresh
    simp [discoverService, hfresh]
  · intro hmiss
    rw [discoverService_miss name cached now reg hmiss]
    exact discoverViaRegistry_calls name cached now reg
  · intro hwin hok
    by_cases hhit : cacheExpired cached now = true
    · rcases hok with hok | hok
      · subst hok
        rw [discoverService_miss name cached now _ hhit]
        have hcache : (discoverViaRegistry name cached now (.ok url)).cache =
            some { url := url, timestamp := now } := rfl
        rw [hcache]
        have h2 : discoverService name (some { url := url, timestamp := now })
            now2 reg2 =
            { result := some url, cache := some { url := url, timestamp := now }
              registryCalled := false } := by
          simp [discoverService, hwin]
        rw [h2]
        simp [registryCallCount, discoverViaRegistry_calls]
      · rw [discoverService_miss name cached now reg hhit] at hok
        rw [discoverViaRegistry_calls name cached now reg] at hok
        cases hok
    · cases cached with
      | none => simp [cacheExpired] at hhit
      | some e =>
          have hfresh : now - e.timestamp < CACHE_TTL := by
            simpa [cacheExpired] using hhit
          have h1 : discoverService name (some e) now reg =
              { result := some e.url, cache := some e, registryCalled := false } := by
            simp [discoverService, hfresh]
          rw [h1]
          have h2 : registryCallCount
              { result := some e.url, cache := some e, registryCalled := false } = 0 :=
            rfl
          rw [h2, Nat.zero_add]
          unfold registryCallCount
          split <;> omega
  · rw [discoverService_miss name (onProxyError cc) now2 reg2 (by rfl)]
    exact discoverViaRegistry_calls name (onProxyError cc) now2 reg2

/-- Witness for C5 (amended): an empty cache for s2-tickets at time 40000, a
successful first registry query, and a second resolve at 50000 — well inside
one TTL window — contact the registry only once between them. -/
theorem C5_witness :
    ((40000 : Nat) -
        ({ url := "http://10.0.0.7:3002", timestamp := 0 } : CacheEntry).timestamp <
        CACHE_TTL →
      discoverService "s2-tickets"
          (some { url := "http://10.0.0.7:3002", timestamp := 0 }) 40000
          (.ok "http://10.0.0.7:3002") =
        { result := some ({ url := "http://10.0.0.7:3002", timestamp := 0 } : CacheEntry).url
          cache := some { url := "http://10.0.0.7:3002", timestamp := 0 }
          registryCalled := false }) ∧
    (cacheExpired none 40000 = true →
      (discoverService "s2-tickets" none 40000 (.ok "http://10.0.0.7:3002")).registryCalled
        = true) ∧
    ((50000 : Nat) - 40000 < CACHE_TTL →
      (RegistryAnswer.ok "http://10.0.0.7:3002" = .ok "http://10.0.0.7:3002" ∨
        (discoverService "s2-tickets" none 40000 (.ok "http://10.0.0.7:3002")).registryCalled
          = false) →
      registryCallCount
          (discoverService "s2-tickets" none 40000 (.ok "http://10.0.0.7:3002")) +
        registryCallCount
          (discoverService "s2-tickets"
            (discoverService "s2-tickets" none 40000 (.ok "http://10.0.0.7:3002")).cache
            50000 .failure)
        ≤ 1) ∧
    (discoverService "s2-tickets"
        (onProxyError (some { url := "http://10.0.0.7:3002", timestamp := 40000 }))
        50000 .failure).registryCalled = true :=
  C5_cache_discipline "s2-tickets" { url := "http://10.0.0.7:3002", timestamp := 0 }
    none (some { url := "http://10.0.0.7:3002", timestamp := 40000 })
    40000 50000 (.ok "http://10.0.0.7:3002") .failure "http://10.0.0.7:3002"

/-- Counterexample for C5 as stated: with the registry failing, two resolve
calls for s1-auth 1 second apart (well inside one 30 s TTL window) both
contact the registry — the fallback answer of the first call is not cached, so
the pair performs two registry calls, not at most one. -/
theorem C5_counterexample :
    (discoverService "s1-auth" none 0 .failure).registryCalled = true ∧
    (discoverService "s1-auth" (discoverService "s1-auth" none 0 .failure).cache
        1000 .failure).registryCalled = true ∧
    (1000 : Nat) - 0 < CACHE_TTL ∧
    registryCallCount (discoverService "s1-auth" none 0 .failure) +
      registryCallCount
        (discoverService "s1-auth" (discoverService "s1-auth" none 0 .failure).cache
          1000 .failure) = 2 := by
  decide

/-- C6: when the cache cannot answer and the registry query fails (axios
error or a body without url), a fallback-table hit is returned with the cache
left untouched, and a fallback-table miss propagates the failure so the
gateway answers 503 Service Unavailable; an expired cached value is never
returned. -/
theorem C6_fallback_on_failure (name : String) (cached : Option CacheEntry)
    (now : Nat) (reg : RegistryAnswer) (fb : String)
    (hmiss : cacheExpired cached now = true)
    (hreg : reg = .noUrl ∨ reg = .failure) :
    (fallbackUrls name = some fb →
      discoverService name cached now reg =
        { result := some fb, cache := cached, registryCalled := true }) ∧
    (fallbackUrls name = none →
      discoverService name cached now reg =
        { result := none, cache := cached, registryCalled := true } ∧
      createDynamicProxy name cached now reg = (.unavailable, cached)) := by
  have hrun : discoverService name cached now reg =
      fallbackPath cached (fallbackUrls name) := by
    rw [discoverService_miss name cached now reg hmiss]
    rcases hreg with h | h <;> subst h <;> rfl
  constructor
  · intro hfb
    rw [hrun, hfb]
    rfl
  · intro hfb
    rw [hrun, hfb]
    refine ⟨rfl, ?_⟩
    unfold createDynamicProxy
    rw [hrun, hfb]
    rfl

/-- Witness for C6 at the name s9-unknown (absent from the fallback table)
with an empty cache and a failing registry: the 503 branch fires. -/
theorem C6_witness :
    cacheExpired none 5000 = true ∧
    (RegistryAnswer.failure = RegistryAnswer.noUrl ∨
      RegistryAnswer.failure = RegistryAnswer.failure) ∧
    ((fallbackUrls "s9-unknown" = some "http://nowhere:1" →
        discoverService "s9-unknown" none 5000 .failure =
          { result := some "http://nowhere:1", cache := none, registryCalled := true }) ∧
      (fallbackUrls "s9-unknown" = none →
        discoverService "s9-unknown" none 5000 .failure =
          { result := none, cache := none, registryCalled := true } ∧
        createDynamicProxy "s9-unknown" none 5000 .failure = (.unavailable, none))) :=
  ⟨by decide, Or.inr rfl,
    C6_fallback_on_failure "s9-unknown" none 5000 .failure "http://nowhere:1"
      (by decide) (Or.inr rfl)⟩

/-- Whether the attempt with this HTTP outcome is treated as failed by the
retry loop: registerService rejects, or resolves a value whose success field
is literally false. -/
def attemptFails (o : HttpOutcome) : Bool :=
  match registerService o with
  | .resolve v => v.success == some false
  | .reject _ => true

/-- Attempts 1..n all fail in the sense of the retry loop. -/
def failsThrough (outcomes : Nat → HttpOutcome) (n : Nat) : Prop :=
  ∀ j, 1 ≤ j → j ≤ n → attemptFails (outcomes j) = true

/-- Helper: the loop of registerWithRetry never exceeds maxRetries attempts
and always performs exactly one delay fewer than the attempts it makes. -/
lemma retryGo_inv (outcomes : Nat → HttpOutcome) (maxRetries : Nat) :
    ∀ fuel attempt delays, attempt + fuel = maxRetries + 1 → 1 ≤ attempt →
    delays = min (attempt - 1) (maxRetries - 1) →
    (retryGo outcomes maxRetries attempt fuel delays).attempts ≤ maxRetries ∧
    (retryGo outcomes maxRetries attempt fuel delays).delays =
      (retryGo outcomes maxRetries attempt fuel delays).attempts - 1 := by
  intro fuel
  induction fuel with
  | zero =>
      intro attempt delays hsum h1 hd
      simp only [retryGo]
      refine ⟨le_refl _, ?_⟩
      show delays = maxRetries - 1
      omega
  | succ n ih =>
      intro attempt delays hsum h1 hd
      have hatt : attempt ≤ maxRetries := by omega
      cases hres : registerService (outcomes attempt) with
      | resolve v =>
          by_cases hv : v.success ≠ some false
          · simp only [retryGo, hres]
            rw [if_pos hv]
            refine ⟨hatt, ?_⟩
            show delays = attempt - 1
            omega
          · simp only [retryGo, hres]
            rw [if_neg hv]
            by_cases hlt : attempt < maxRetries
            · rw [if_pos hlt]
              exact ih (attempt + 1) (delays + 1) (by omega) (by omega) (by omega)
            · rw [if_neg hlt]
              exact ih (attempt + 1) delays (by omega) (by omega) (by omega)
      | reject c =>
          simp only [retryGo, hres]
          by_cases hlt : attempt < maxRetries
          · rw [if_pos hlt]
            exact ih (attempt + 1) (delays + 1) (by omega) (by omega) (by omega)
          · rw [if_neg hlt]
            exact ih (attempt + 1) delays (by omega) (by omega) (by omega)

/-- Helper: when every remaining attempt fails, the loop runs to the end and
returns the non-fatal failure value. -/
lemma retryGo_allFail (outcomes : Nat → HttpOutcome) (maxRetries : Nat) :
    ∀ fuel attempt delays, attempt + fuel = maxRetries + 1 → 1 ≤ attempt →
    (∀ j, attempt ≤ j → j ≤ maxRetries → attemptFails (outcomes j) = true) →
    retryGo outcomes maxRetries attempt fuel delays =
      { result := { success := some false, raw := "" }
        attempts := maxRetries
        delays := delays + (maxRetries - attempt) } := by
  intro fuel
  induction fuel with
  | zero =>
      intro attempt delays hsum h1 hfail
      simp only [retryGo]
      have harith : delays + (maxRetries - attempt) = delays := by omega
      rw [harith]
  | succ n ih =>
      intro attempt delays hsum h1 hfail
      have hatt : attempt ≤ maxRetries := by omega
      have hfa := hfail attempt (le_refl _) hatt
      cases hres : registerService (outcomes attempt) with
      | resolve v =>
          have hv : v.success = some false := by
            have := hfa
            simp only [attemptFails, hres, beq_iff_eq] at this
            exact this
          simp only [retryGo, hres]
          rw [if_neg (not_ne_iff.mpr hv)]
          by_cases hlt : attempt < maxRetries
          · rw [if_pos hlt]
            have hrec := ih (attempt + 1) (delays + 1) (by omega) (by omega)
              (fun j hj1 hj2 => hfail j (by omega) hj2)
            have harith : delays + 1 + (maxRetries - (attempt + 1)) =
                delays + (maxRetries - attempt) := by omega
            rw [hrec, harith]
          · rw [if_neg hlt]
            have hrec := ih (attempt + 1) delays (by omega) (by omega)
              (fun j hj1 hj2 => hfail j (by omega) hj2)
            have harith : delays + (maxRetries - (attempt + 1)) =
                delays + (maxRetries - attempt) := by omega
            rw [hrec, harith]
      | reject c =>
          simp only [retryGo, hres]
          by_cases hlt : attempt < maxRetries
          · rw [if_pos hlt]
            have hrec := ih (attempt + 1) (delays + 1) (by omega) (by omega)
              (fun j hj1 hj2 => hfail j (by omega) hj2)
            have harith : delays + 1 + (maxRetries - (attempt + 1)) =
                delays + (maxRetries - attempt) := by omega
            rw [hrec, harith]
          · rw [if_neg hlt]
            have hrec := ih (attempt + 1) delays (by omega) (by omega)
              (fun j hj1 hj2 => hfail j (by omega) hj2)
            have harith : delays + (maxRetries - (attempt + 1)) =
                delays + (maxRetries - attempt) := by omega
            rw [hrec, harith]

/-- Helper: when attempts before k fail and attempt k resolves a value whose
success field is not false, the loop stops at attempt k with that value. -/
lemma retryGo_firstSuccess (outcomes : Nat → HttpOutcome) (maxRetries k : Nat)
    (v : ResolvedValue) (hk : k ≤ maxRetries)
    (hres : registerService (outcomes k) = .resolve v)
    (hv : v.success ≠ some false) :
    ∀ fuel attempt delays, attempt + fuel = maxRetries + 1 → 1 ≤ attempt →
    attempt ≤ k →
    (∀ j, attempt ≤ j → j < k → attemptFails (outcomes j) = true) →
    retryGo outcomes maxRetries attempt fuel delays =
      { result := v, attempts := k, delays := delays + (k - attempt) } := by
  intro fuel
  induction fuel with
  | zero =>
      intro attempt delays hsum h1 hak hfail
      exfalso
      omega
  | succ n ih =>
      intro attempt delays hsum h1 hak hfail
      rcases eq_or_lt_of_le hak with heq | hlt
      · subst heq
        simp only [retryGo, hres]
        rw [if_pos hv]
        simp [Nat.sub_self]
      · have hfa := hfail attempt (le_refl _) hlt
        have hltm : attempt < maxRetries := by omega
        cases hres2 : registerService (outcomes attempt) with
        | resolve w =>
            have hw : w.success = some false := by
              have := hfa
              simp only [attemptFails, hres2, beq_iff_eq] at this
              exact this
            simp only [retryGo, hres2]
            rw [if_neg (not_ne_iff.mpr hw), if_pos hltm]
            have hrec := ih (attempt + 1) (delays + 1) (by omega) (by omega)
              (by omega) (fun j hj1 hj2 => hfail j (by omega) hj2)
            have harith : delays + 1 + (k - (attempt + 1)) =
                delays + (k - attempt) := by omega
            rw [hrec, harith]
        | reject c =>
            simp only [retryGo, hres2]
            rw [if_pos hltm]
            have hrec := ih (attempt + 1) (delays + 1) (by omega) (by omega)
              (by omega) (fun j hj1 hj2 => hfail j (by omega) hj2)
            have harith : delays + 1 + (k - (attempt + 1)) =
                delays + (k - attempt) := by omega
            rw [hrec, harith]

/-- C7: registerWithRetry performs at most maxRetries attempts, waits once
between consecutive attempts (delays = attempts - 1), returns the resolved
registry response of the first attempt the loop counts as successful, and
after all attempts fail returns the non-fatal value with success false.  The
embedding is a total function: every rejection of registerService is consumed
by the catch branch of the loop, so no run of registerWithRetry throws. -/
theorem C7_register_retry (outcomes : Nat → HttpOutcome) (maxRetries k : Nat)
    (v : ResolvedValue) (h1 : 1 ≤ maxRetries) :
    (registerWithRetry outcomes maxRetries).attempts ≤ maxRetries ∧
    (registerWithRetry outcomes maxRetries).delays =
      (registerWithRetry outcomes maxRetries).attempts - 1 ∧
    (1 ≤ k → k ≤ maxRetries → failsThrough outcomes (k - 1) →
      registerService (outcomes k) = .resolve v → v.success ≠ some false →
      registerWithRetry outcomes maxRetries =
        { result := v, attempts := k, delays := k - 1 }) ∧
    (failsThrough outcomes maxRetries →
      registerWithRetry outcomes maxRetries =
        { result := { success := some false, raw := "" }
          attempts := maxRetries
          delays := maxRetries - 1 }) := by
  have hinv := retryGo_inv outcomes maxRetries maxRetries 1 0
    (by omega) (by omega) (by omega)
  refine ⟨hinv.1, hinv.2, ?_, ?_⟩
  · intro hk1 hk2 hthrough hres hv
    have hfail : ∀ j, 1 ≤ j → j < k → attemptFails (outcomes j) = true :=
      fun j hj1 hj2 => hthrough j hj1 (by omega)
    have := retryGo_firstSuccess outcomes maxRetries k v hk2 hres hv
      maxRetries 1 0 (by omega) (by omega) hk1 hfail
    unfold registerWithRetry
    rw [this, Nat.zero_add]
  · intro hthrough
    have := retryGo_allFail outcomes maxRetries maxRetries 1 0
      (by omega) (by omega) (fun j hj1 hj2 => hthrough j hj1 hj2)
    unfold registerWithRetry
    rw [this, Nat.zero_add]

/-- A sample attempt schedule: the first attempt hits a connection error, the
second reaches the registry and gets a 201 body. -/
def sampleOutcomes : Nat → HttpOutcome := fun j =>
  if j = 1 then .networkError "ECONNREFUSED"
  else .status 201 { success := none, raw := "registered" } true

/-- Witness for C7: with the sample schedule and maxRetries = 3 the helper
returns the 201 body on attempt 2 after one delay. -/
theorem C7_witness :
    (1 : Nat) ≤ 3 ∧
    ((registerWithRetry sampleOutcomes 3).attempts ≤ 3 ∧
      (registerWithRetry sampleOutcomes 3).delays =
        (registerWithRetry sampleOutcomes 3).attempts - 1 ∧
      (1 ≤ 2 → 2 ≤ 3 → failsThrough sampleOutcomes (2 - 1) →
        registerService (sampleOutcomes 2) =
          .resolve { success := none, raw := "registered" } →
        ({ success := none, raw := "registered" } : ResolvedValue).success ≠ some false →
        registerWithRetry sampleOutcomes 3 =
          { result := { success := none, raw := "registered" }
            attempts := 2, delays := 2 - 1 }) ∧
      (failsThrough sampleOutcomes 3 →
        registerWithRetry sampleOutcomes 3 =
          { result := { success := some false, raw := "" }
            attempts := 3, delays := 3 - 1 })) :=
  ⟨by decide, C7_register_retry sampleOutcomes 3 2
    { success := none, raw := "registered" } (by decide)⟩

/-- C8 (amended): a 400 ValidationError response makes registerService reject
(the 4xx failure is surfaced to its caller), but registerWithRetry catches the
rejection and retries it like any other failure, exhausting maxRetries
attempts and returning the non-fatal success-false value. -/
theorem C8_validation_rejected_but_retried (body : ResolvedValue)
    (parseOk : Bool) (maxRetries : Nat) (h1 : 1 ≤ maxRetries) :
    registerService (.status 400 body parseOk) = .reject 400 ∧
    registerWithRetry (fun _ => .status 400 body parseOk) maxRetries =
      { result := { success := some false, raw := "" }
        attempts := maxRetries
        delays := maxRetries - 1 } := by
  constructor
  · rfl
  · have hfail : ∀ j, 1 ≤ j → j ≤ maxRetries →
        attemptFails ((fun _ => HttpOutcome.status 400 body parseOk) j) = true :=
      fun j _ _ => rfl
    have := retryGo_allFail (fun _ => .status 400 body parseOk) maxRetries
      maxRetries 1 0 (by omega) (by omega) hfail
    unfold registerWithRetry
    rw [this, Nat.zero_add]

/-- Witness for C8 (amended) at maxRetries = 2 and an empty 400 body. -/
theorem C8_witness :
    (1 : Nat) ≤ 2 ∧
    (registerService (.status 400 { success := none, raw := "" } true) = .reject 400 ∧
      registerWithRetry (fun _ => .status 400 { success := none, raw := "" } true) 2 =
        { result := { success := some false, raw := "" }
          attempts := 2, delays := 2 - 1 }) :=
  ⟨by decide,
    C8_validation_rejected_but_retried { success := none, raw := "" } true 2 (by decide)⟩

/-- Counterexample for C8 as stated: with the registry answering 400 on every
attempt and maxRetries = 2, the helper performs a second attempt after the
first 400 rejection — the ValidationError is retried, not surfaced once —
and returns the non-fatal success-false value. -/
theorem C8_counterexample :
    (registerWithRetry (fun _ => .status 400 { success := none, raw := "" } true)
        2).attempts = 2 ∧
    (registerWithRetry (fun _ => .status 400 { success := none, raw := "" } true)
        2).result = { success := some false, raw := "" } := by
  decide

/-- Witness for C10: the empty registry is consistent and stays so under a
concrete registration, deregistration and health-check step. -/
theorem C10_witness :
    mapsConsistent emptyRegistry ∧
    (mapsConsistent (registerHandler emptyRegistry
        { name := "svc-a", host := "10.0.0.5", port := 9000, healthEndpoint := none }
        0).2 ∧
      mapsConsistent (deregisterHandler emptyRegistry "svc-a").2 ∧
      mapsConsistent (healthCheckStep emptyRegistry "svc-a" (.err "down") 3)) :=
  ⟨fun _ => Iff.rfl,
    C10_store_counter_alignment emptyRegistry
      { name := "svc-a", host := "10.0.0.5", port := 9000, healthEndpoint := none }
      "svc-a" "svc-a" (.err "down") 0 3 (fun _ => Iff.rfl)⟩
